import Mathlib

/-!
Shallow embedding of `src/lib/calculateTrade.ts` (the richer variant with
advanced position sizing), the pure trade-plan calculator of the
trading-calculator repository.

JavaScript numbers are modelled as exact rationals (`ℚ`).  The `toFixed`
string formatting of the output is abstracted away: every result field
carries the exact numeric value that the source then formats.  The
informational `position_sizing_method` / `position_sizing_note` labels are
display-only strings (spec §4.1: "non-functional, informational only") and
are omitted from the embedded result.  The source's local bindings inside
`calculateTrade3TP` are lifted to top-level definitions with the same names.
-/

namespace TradeCalc

/-- `Direction` (source line 1).  `direction.toLowerCase()` normalization is
the identity on this enum model. -/
inductive Direction where
  | long
  | short
  deriving DecidableEq, Repr

/-- `LimitStyle` (source line 2). -/
inductive LimitStyle where
  | increasing
  | equal
  | decreasing
  deriving DecidableEq, Repr

/-- `PositionSizingMethod` (source line 3). -/
inductive PositionSizingMethod where
  | fixed
  | kelly
  | fixed_fractional
  | volatility
  | risk_parity
  deriving DecidableEq, Repr

/-- `TradeLimit` (source lines 5-8), numeric fields instead of formatted
strings. -/
structure TradeLimit where
  price : ℚ
  margin : ℚ
  deriving DecidableEq, Repr

/-- `TakeProfit` (source lines 10-16), numeric fields instead of formatted
strings. -/
structure TakeProfit where
  level : ℕ
  price : ℚ
  move_pct : ℚ
  usd : ℚ
  risk_reward : ℚ
  deriving DecidableEq, Repr

/-- `TradeCalculationResult` (source lines 18-31), numeric fields instead of
formatted strings; the two informational string labels are omitted. -/
structure TradeCalculationResult where
  margin : ℚ
  position : ℚ
  entry_price : ℚ
  stop_price : ℚ
  stop_usd : ℚ
  liquidation_price : ℚ
  liquidation_distance_pct : ℚ
  safety_margin_pct : ℚ
  limits : List TradeLimit
  takes : List TakeProfit
  deriving DecidableEq, Repr

/-- `TradeCalculationParams` (source lines 33-54) together with the default
values that `calculateTrade3TP` destructures (source lines 72-93).
`num_limits` is an integer so that out-of-domain negative inputs can be
studied.  The field `avg_win_loss` embeds the source's win/loss-quotient
parameter (`avg_win_loss_ratio` in the source). -/
structure TradeCalculationParams where
  deposit : ℚ
  direction : Direction
  current_price : ℚ
  leverage : ℚ
  num_limits : ℤ := 2
  limit_style : LimitStyle := LimitStyle.increasing
  deposit_risk : ℚ := 0.143
  stop_risk : ℚ := 0.05
  tp_percents : List ℚ := [0.04, 0.09, 0.16]
  position_sizing : PositionSizingMethod := PositionSizingMethod.fixed
  win_rate : ℚ := 0.5
  avg_win_loss : ℚ := 2.0
  fixed_fraction : ℚ := 0.02
  atr_value : ℚ := 0
  atr_multiplier : ℚ := 2.0
  target_risk_pct : ℚ := 0.02
  deriving DecidableEq, Repr

/-- `BASE_LIMITS` table (source lines 56-67). -/
def BASE_LIMITS : Direction → LimitStyle → List ℚ
  | Direction.long, LimitStyle.increasing => [-0.002, -0.004, -0.006]
  | Direction.long, LimitStyle.equal => [-0.005, -0.010, -0.015]
  | Direction.long, LimitStyle.decreasing => [-0.010, -0.020, -0.030]
  | Direction.short, LimitStyle.increasing => [0.002, 0.004, 0.006]
  | Direction.short, LimitStyle.equal => [0.01, 0.02, 0.04]
  | Direction.short, LimitStyle.decreasing => [0.02, 0.04, 0.06]

/-- `TP_SPLITS` (source line 69). -/
def TP_SPLITS : List ℚ := [0.4, 0.35, 0.25]

/-- The advanced position-sizing if-chain (source lines 98-139), producing
`calculated_margin`.  The `volatility` branch is guarded by `atr_value > 0`
exactly as in the source, so `volatility` with a non-positive ATR falls
through to the final fixed-risk branch. -/
def calculated_margin (p : TradeCalculationParams) : ℚ :=
  if p.position_sizing = PositionSizingMethod.kelly then
    let q := 1 - p.win_rate
    let b := p.avg_win_loss
    let kelly_fraction := (b * p.win_rate - q) / b
    let safe_kelly := max 0 (min (kelly_fraction * 0.5) 0.25)
    p.deposit * safe_kelly
  else if p.position_sizing = PositionSizingMethod.fixed_fractional then
    p.deposit * p.fixed_fraction
  else if p.position_sizing = PositionSizingMethod.volatility ∧ p.atr_value > 0 then
    let volatility_factor := p.atr_value * p.atr_multiplier
    let base_risk := p.deposit * p.deposit_risk
    let volatility_adjusted_risk := base_risk / (1 + volatility_factor / p.current_price)
    max volatility_adjusted_risk (p.deposit * 0.01)
  else if p.position_sizing = PositionSizingMethod.risk_parity then
    p.deposit * p.target_risk_pct
  else
    p.deposit * p.deposit_risk

/-- `margin` (source line 143). -/
def margin (p : TradeCalculationParams) : ℚ := calculated_margin p

/-- `position` (source line 144). -/
def position (p : TradeCalculationParams) : ℚ := margin p * p.leverage

/-- `stop_usd` (source line 145). -/
def stop_usd (p : TradeCalculationParams) : ℚ := position p * p.stop_risk

/-- The margin-split ladder (source lines 151-181) for a *recognized*
`limit_style`.  The string-level fallback branch (source lines 178-181,
"shouldn't happen") is unreachable on this enum and is modelled in
`calculateTrade3TPUnrecognizedStyle` below. -/
def splits (num_limits : ℤ) (limit_style : LimitStyle) : List ℚ :=
  if num_limits ≤ 1 then [1]
  else
    match limit_style with
    | LimitStyle.equal => List.replicate num_limits.toNat (1 / (num_limits : ℚ))
    | LimitStyle.increasing => if num_limits = 2 then [0.7, 0.3] else [0.6, 0.3, 0.1]
    | LimitStyle.decreasing => if num_limits = 2 then [0.4, 0.6] else [0.3, 0.3, 0.4]

/-- JavaScript `array.slice(0, e)`: a negative end index counts back from the
end of the array, clamped at 0. -/
def jsSliceTo (l : List ℚ) (e : ℤ) : List ℚ :=
  if e < 0 then l.take ((l.length : ℤ) + e).toNat else l.take e.toNat

/-- Insertion step of an ascending sort on rationals. -/
def insertAsc (a : ℚ) : List ℚ → List ℚ
  | [] => [a]
  | b :: l => if a ≤ b then a :: b :: l else b :: insertAsc a l

/-- Ascending sort, modelling `sort((a, b) => a - b)`. -/
def sortAsc : List ℚ → List ℚ
  | [] => []
  | a :: l => insertAsc a (sortAsc l)

/-- Insertion step of a descending sort on rationals. -/
def insertDesc (a : ℚ) : List ℚ → List ℚ
  | [] => [a]
  | b :: l => if b ≤ a then a :: b :: l else b :: insertDesc a l

/-- Descending sort, modelling `sort((a, b) => b - a)`. -/
def sortDesc : List ℚ → List ℚ
  | [] => []
  | a :: l => insertDesc a (sortDesc l)

/-- `sortedDistances` (source lines 194-208): take the first `num_limits`
table offsets, then sort ascending for long (most negative first) and
descending for short (most positive first). -/
def sortedDistances (dir : Direction) (style : LimitStyle) (num_limits : ℤ) : List ℚ :=
  let distances := BASE_LIMITS dir style
  let taken := jsSliceTo distances num_limits
  match dir with
  | Direction.long => sortAsc taken
  | Direction.short => sortDesc taken

/-- The `limits` array built by the loop at source lines 183-218.  The loop
runs `num_limits` times (hence zero times when `num_limits < 0`); an index
beyond the offset or split tables would read `undefined` in JavaScript and is
given the junk default `0` here (no claim touches `num_limits > 3`). -/
def limits (p : TradeCalculationParams) : List TradeLimit :=
  if p.num_limits = 0 then
    [{ price := p.current_price, margin := margin p }]
  else
    let sd := sortedDistances p.direction p.limit_style p.num_limits
    let sp := splits p.num_limits p.limit_style
    (List.range p.num_limits.toNat).map
      (fun i =>
        { price := p.current_price * (1 + sd.getD i 0)
          margin := margin p * sp.getD i 0 })

/-- `avg_price` (source lines 184-220): `current_price` when `num_limits = 0`,
otherwise the split-weighted sum of the limit prices divided by the sum of
the splits. -/
def avg_price (p : TradeCalculationParams) : ℚ :=
  if p.num_limits = 0 then p.current_price
  else
    let sd := sortedDistances p.direction p.limit_style p.num_limits
    let sp := splits p.num_limits p.limit_style
    let split_sum := sp.foldl (fun a b => a + b) 0
    (((List.range p.num_limits.toNat).map
        (fun i => p.current_price * (1 + sd.getD i 0) * sp.getD i 0)).foldl
      (fun a b => a + b) 0) / split_sum

/-- `stop_price` (source lines 222-225). -/
def stop_price (p : TradeCalculationParams) : ℚ :=
  match p.direction with
  | Direction.long => avg_price p * (1 - p.stop_risk)
  | Direction.short => avg_price p * (1 + p.stop_risk)

/-- `liquidation_price` (source lines 230-232). -/
def liquidation_price (p : TradeCalculationParams) : ℚ :=
  match p.direction with
  | Direction.long => avg_price p * (1 - 1 / p.leverage)
  | Direction.short => avg_price p * (1 + 1 / p.leverage)

/-- `liquidation_distance_pct` (source lines 235-237). -/
def liquidation_distance_pct (p : TradeCalculationParams) : ℚ :=
  match p.direction with
  | Direction.long => ((avg_price p - liquidation_price p) / avg_price p) * 100
  | Direction.short => ((liquidation_price p - avg_price p) / avg_price p) * 100

/-- `safety_margin_pct` = `stop_to_liquidation_pct` (source lines 240-244). -/
def safety_margin_pct (p : TradeCalculationParams) : ℚ :=
  match p.direction with
  | Direction.long => ((stop_price p - liquidation_price p) / avg_price p) * 100
  | Direction.short => ((liquidation_price p - stop_price p) / avg_price p) * 100

/-- The body of the `tp_percents.map((tp, i) => ...)` callback (source lines
247-260), with explicit index recursion.  `TP_SPLITS[i]` beyond index 2 would
be `undefined` in JavaScript and is given the junk default `0` (every claim
fixes `tp_percents` at its documented length 3). -/
def takesAux (p : TradeCalculationParams) : ℕ → List ℚ → List TakeProfit
  | _, [] => []
  | i, tp :: rest =>
    { level := i + 1
      price :=
        match p.direction with
        | Direction.long => avg_price p * (1 + tp)
        | Direction.short => avg_price p * (1 - tp)
      move_pct := tp * 100
      usd := position p * tp * TP_SPLITS.getD i 0
      risk_reward :=
        if stop_usd p > 0 then position p * tp * TP_SPLITS.getD i 0 / stop_usd p
        else 0 } :: takesAux p (i + 1) rest

/-- `takes` (source lines 247-260). -/
def takes (p : TradeCalculationParams) : List TakeProfit :=
  takesAux p 0 p.tp_percents

/-- `calculateTrade3TP` (source lines 71-276) on its declared parameter type
(recognized enum values), assembling the result record of source lines
262-275. -/
def calculateTrade3TP (p : TradeCalculationParams) : TradeCalculationResult :=
  { margin := margin p
    position := position p
    entry_price := avg_price p
    stop_price := stop_price p
    stop_usd := stop_usd p
    liquidation_price := liquidation_price p
    liquidation_distance_pct := liquidation_distance_pct p
    safety_margin_pct := safety_margin_pct p
    limits := limits p
    takes := takes p }

/-- Runtime behaviour of `calculateTrade3TP` when the `limit_style` string is
*not* one of the recognized enum values (TypeScript does not check enums at
runtime).  Tracing the source: the splits chain silently substitutes the
fallback `[0.5, 0.5]` / `[0.33, 0.33, 0.34]` (source lines 178-181) when
`2 ≤ num_limits`, and `[1]` when `num_limits ≤ 1`; then

* if `num_limits = 0` (source lines 187-192) neither the offset table nor the
  splits are consulted, and a complete result is returned, identical to the
  recognized-style result at `num_limits = 0`;
* otherwise `BASE_LIMITS[direction][limit_style]` is `undefined` and the
  spread `[...distances]` at source line 199 throws a `TypeError`
  (an uncontrolled crash, not a validation error). -/
def calculateTrade3TPUnrecognizedStyle
    (p : TradeCalculationParams) : Except String TradeCalculationResult :=
  if p.num_limits = 0 then
    let margin := calculated_margin p
    let position := margin * p.leverage
    let stop_usd := position * p.stop_risk
    let avg_price := p.current_price
    let stop_price :=
      match p.direction with
      | Direction.long => avg_price * (1 - p.stop_risk)
      | Direction.short => avg_price * (1 + p.stop_risk)
    let liquidation_price :=
      match p.direction with
      | Direction.long => avg_price * (1 - 1 / p.leverage)
      | Direction.short => avg_price * (1 + 1 / p.leverage)
    let liquidation_distance_pct :=
      match p.direction with
      | Direction.long => ((avg_price - liquidation_price) / avg_price) * 100
      | Direction.short => ((liquidation_price - avg_price) / avg_price) * 100
    let safety_margin_pct :=
      match p.direction with
      | Direction.long => ((stop_price - liquidation_price) / avg_price) * 100
      | Direction.short => ((liquidation_price - stop_price) / avg_price) * 100
    Except.ok
      { margin := margin
        position := position
        entry_price := avg_price
        stop_price := stop_price
        stop_usd := stop_usd
        liquidation_price := liquidation_price
        liquidation_distance_pct := liquidation_distance_pct
        safety_margin_pct := safety_margin_pct
        limits := [{ price := avg_price, margin := margin }]
        takes := takesAux p 0 p.tp_percents }
  else
    Except.error ("TypeError: undefined is not iterable")

end TradeCalc

namespace TradeCalc

/-! ### Helper lemmas -/

lemma toNat_one : (1 : ℤ).toNat = 1 := rfl

lemma toNat_two : (2 : ℤ).toNat = 2 := rfl

lemma toNat_three : (3 : ℤ).toNat = 3 := rfl

lemma range_one : List.range 1 = [0] := rfl

lemma range_two : List.range 2 = [0, 1] := rfl

lemma range_three : List.range 3 = [0, 1, 2] := rfl

lemma replicate_two (a : ℚ) : List.replicate 2 a = [a, a] := rfl

lemma replicate_three (a : ℚ) : List.replicate 3 a = [a, a, a] := rfl

/-- For a valid `num_limits` and a positive market price the weighted-average
entry price is positive (every table offset exceeds `-1`). -/
lemma avg_price_pos (p : TradeCalculationParams)
    (hn : p.num_limits = 0 ∨ p.num_limits = 1 ∨ p.num_limits = 2 ∨ p.num_limits = 3)
    (hcp : 0 < p.current_price) : 0 < avg_price p := by
  rcases hn with h | h | h | h
  · simpa [avg_price, h] using hcp
  all_goals
    cases hd : p.direction <;> cases hs : p.limit_style <;>
      norm_num [avg_price, h, hd, hs, sortedDistances, BASE_LIMITS, jsSliceTo, splits,
        sortAsc, insertAsc, sortDesc, insertDesc, toNat_one, toNat_two, toNat_three,
        range_one, range_two, range_three, replicate_two, replicate_three] <;>
      nlinarith [hcp]

/-- The gap between the weighted-average entry and the liquidation price is
`entry / leverage` in both directions. -/
lemma abs_entry_liq_gap (q : TradeCalculationParams) (hq : 0 < q.leverage)
    (havg : 0 < avg_price q) :
    |avg_price q - liquidation_price q| = avg_price q / q.leverage := by
  cases hd : q.direction
  · simp only [liquidation_price, hd]
    rw [show avg_price q - avg_price q * (1 - 1 / q.leverage) = avg_price q / q.leverage from by
      ring]
    exact abs_of_pos (div_pos havg hq)
  · simp only [liquidation_price, hd]
    rw [show avg_price q - avg_price q * (1 + 1 / q.leverage) = -(avg_price q / q.leverage) from by
      ring, abs_neg]
    exact abs_of_pos (div_pos havg hq)

/-- When the weighted-average entry price is zero, every take-profit price is
zero. -/
lemma takesAux_price_zero (p : TradeCalculationParams) (hav : avg_price p = 0) :
    ∀ i l, ∀ t ∈ takesAux p i l, t.price = 0 := by
  intro i l
  induction l generalizing i with
  | nil => intro t ht; simp [takesAux] at ht
  | cons tp rest ih =>
    intro t ht
    simp only [takesAux, List.mem_cons] at ht
    rcases ht with h | h
    · subst h
      cases hd : p.direction <;> simp [hd, hav]
    · exact ih (i + 1) t h

/-- A concrete all-defaults input reused by several witnesses. -/
def defaultParams : TradeCalculationParams :=
  { deposit := 1000, direction := Direction.long, current_price := 100, leverage := 10 }

/-! ### Claim theorems -/

/-- C6: for every input, the `position` field of the result equals the
`margin` field times the leverage, exactly (modelled in exact rationals, so
in particular within any relative floating-point tolerance). -/
theorem c6_position_eq_margin_times_leverage (p : TradeCalculationParams) :
    (calculateTrade3TP p).position = (calculateTrade3TP p).margin * p.leverage := rfl

/-- C5: with `position_sizing = kelly` the margin is
`deposit * clamp(0.5 * (b*p - q)/b, 0, 0.25)` (with `p = win_rate`,
`q = 1 - p`, `b = avg_win_loss_ratio`), and a negative Kelly fraction yields
margin 0, never a negative margin. -/
theorem c5_kelly_margin_half_kelly_clamped (p : TradeCalculationParams)
    (h : p.position_sizing = PositionSizingMethod.kelly) :
    (calculateTrade3TP p).margin =
      p.deposit *
        max 0 (min (0.5 * ((p.avg_win_loss * p.win_rate - (1 - p.win_rate)) / p.avg_win_loss))
          0.25) ∧
    ((p.avg_win_loss * p.win_rate - (1 - p.win_rate)) / p.avg_win_loss < 0 →
      (calculateTrade3TP p).margin = 0) := by
  have hm : (calculateTrade3TP p).margin
      = p.deposit *
          max 0 (min ((p.avg_win_loss * p.win_rate - (1 - p.win_rate)) / p.avg_win_loss * 0.5)
            0.25) := by
    simp [calculateTrade3TP, margin, calculated_margin, h]
  constructor
  · rw [hm, mul_comm ((p.avg_win_loss * p.win_rate - (1 - p.win_rate)) / p.avg_win_loss) (0.5 : ℚ)]
  · intro hneg
    rw [hm]
    have h1 : (p.avg_win_loss * p.win_rate - (1 - p.win_rate)) / p.avg_win_loss * 0.5 ≤ 0 := by
      nlinarith
    rw [min_eq_left (by nlinarith : (p.avg_win_loss * p.win_rate - (1 - p.win_rate)) /
        p.avg_win_loss * 0.5 ≤ 0.25), max_eq_left h1, mul_zero]

/-- Concrete kelly-sizing input for the C5 witness. -/
def kellyParams : TradeCalculationParams :=
  { deposit := 1000, direction := Direction.long, current_price := 100, leverage := 10,
    position_sizing := PositionSizingMethod.kelly }

/-- Witness for C5 at a concrete kelly-sized input. -/
theorem c5_kelly_margin_half_kelly_clamped_witness :
    kellyParams.position_sizing = PositionSizingMethod.kelly ∧
    ((calculateTrade3TP kellyParams).margin =
      kellyParams.deposit *
        max 0 (min (0.5 * ((kellyParams.avg_win_loss * kellyParams.win_rate -
          (1 - kellyParams.win_rate)) / kellyParams.avg_win_loss)) 0.25) ∧
    ((kellyParams.avg_win_loss * kellyParams.win_rate - (1 - kellyParams.win_rate)) /
        kellyParams.avg_win_loss < 0 →
      (calculateTrade3TP kellyParams).margin = 0)) :=
  ⟨rfl, c5_kelly_margin_half_kelly_clamped kellyParams rfl⟩

/-- C2: whenever `tp_percents` has its documented length 3, the result's
`takes` has exactly 3 entries with level numbers 1, 2, 3, in the same order
as the `tp_percents` sequence. -/
theorem c2_takes_exactly_three_ordered_levels (p : TradeCalculationParams)
    (h : p.tp_percents.length = 3) :
    (calculateTrade3TP p).takes.length = 3 ∧
    (calculateTrade3TP p).takes.map TakeProfit.level = [1, 2, 3] ∧
    (calculateTrade3TP p).takes.map TakeProfit.move_pct
      = p.tp_percents.map (fun tp => tp * 100) := by
  obtain ⟨a, b, c, habc⟩ := List.length_eq_three.mp h
  refine ⟨?_, ?_, ?_⟩ <;> simp [calculateTrade3TP, takes, takesAux, habc]

/-- Witness for C2 at a concrete input with the default `tp_percents`. -/
theorem c2_takes_exactly_three_ordered_levels_witness :
    defaultParams.tp_percents.length = 3 ∧
    ((calculateTrade3TP defaultParams).takes.length = 3 ∧
    (calculateTrade3TP defaultParams).takes.map TakeProfit.level = [1, 2, 3] ∧
    (calculateTrade3TP defaultParams).takes.map TakeProfit.move_pct
      = defaultParams.tp_percents.map (fun tp => tp * 100)) :=
  ⟨rfl, c2_takes_exactly_three_ordered_levels defaultParams rfl⟩

lemma ne_fixed_kelly : PositionSizingMethod.fixed ≠ PositionSizingMethod.kelly :=
  fun h => PositionSizingMethod.noConfusion h

lemma ne_fixed_ff : PositionSizingMethod.fixed ≠ PositionSizingMethod.fixed_fractional :=
  fun h => PositionSizingMethod.noConfusion h

lemma ne_fixed_volatility : PositionSizingMethod.fixed ≠ PositionSizingMethod.volatility :=
  fun h => PositionSizingMethod.noConfusion h

lemma ne_fixed_rp : PositionSizingMethod.fixed ≠ PositionSizingMethod.risk_parity :=
  fun h => PositionSizingMethod.noConfusion h

/-- Input with a negative deposit, all optional fields at their defaults. -/
def negDepositParams : TradeCalculationParams :=
  { deposit := -100, direction := Direction.long, current_price := 100, leverage := 10 }

/-- C3: the code performs no numeric-domain validation: at a negative deposit
it returns a full result with a negative margin instead of failing with a
validation error naming the offending field. -/
theorem c3_invalid_numeric_domain_not_failfast :
    (calculateTrade3TP negDepositParams).margin = -143/10 ∧
    (calculateTrade3TP negDepositParams).position = -143 := by
  constructor <;>
    norm_num [calculateTrade3TP, margin, position, calculated_margin, negDepositParams,
      ne_fixed_kelly, ne_fixed_ff, ne_fixed_volatility, ne_fixed_rp]

/-- Input with `num_limits = 0` whose `limit_style` string is outside the
recognized enum. -/
def bogusStyleParams : TradeCalculationParams :=
  { deposit := 1000, direction := Direction.long, current_price := 100, leverage := 10,
    num_limits := 0 }

/-- C1: with an unrecognized `limit_style` string and `num_limits = 0` the
code returns a complete `TradeResult` (the same one the recognized-style
function returns) instead of failing fast with a configuration/validation
error. -/
theorem c1_unrecognized_limit_style_not_failfast :
    calculateTrade3TPUnrecognizedStyle bogusStyleParams
      = Except.ok (calculateTrade3TP bogusStyleParams) ∧
    (calculateTrade3TP bogusStyleParams).entry_price = 100 :=
  ⟨rfl, rfl⟩

/-- C9: for strictly negative `num_limits` the function still returns (the
embedding is total, mirroring the absence of any error path in the source):
the limits list is empty, the entry price is zero, and the stop, liquidation
and take-profit prices are all computed from that zero entry price. -/
theorem c9_negative_num_limits_zero_entry (p : TradeCalculationParams)
    (h : p.num_limits < 0) :
    (calculateTrade3TP p).limits = [] ∧
    (calculateTrade3TP p).entry_price = 0 ∧
    (calculateTrade3TP p).stop_price = 0 ∧
    (calculateTrade3TP p).liquidation_price = 0 ∧
    ∀ t ∈ (calculateTrade3TP p).takes, t.price = 0 := by
  have h0 : ¬ p.num_limits = 0 := by omega
  have h1 : p.num_limits ≤ 1 := by omega
  have htn : p.num_limits.toNat = 0 := by omega
  have hav : avg_price p = 0 := by
    simp [avg_price, h0, htn, splits, h1]
  refine ⟨?_, ?_, ?_, ?_, ?_⟩
  · simp [calculateTrade3TP, limits, h0, htn]
  · simpa [calculateTrade3TP] using hav
  · cases hd : p.direction <;> simp [calculateTrade3TP, stop_price, hd, hav]
  · cases hd : p.direction <;> simp [calculateTrade3TP, liquidation_price, hd, hav]
  · intro t ht
    exact takesAux_price_zero p hav 0 p.tp_percents t ht

/-- Concrete input with `num_limits = -1` for the C9 witness. -/
def negLimitsParams : TradeCalculationParams :=
  { deposit := 1000, direction := Direction.long, current_price := 100, leverage := 10,
    num_limits := -1 }

/-- Witness for C9 at `num_limits = -1`. -/
theorem c9_negative_num_limits_zero_entry_witness :
    negLimitsParams.num_limits < 0 ∧
    ((calculateTrade3TP negLimitsParams).limits = [] ∧
    (calculateTrade3TP negLimitsParams).entry_price = 0 ∧
    (calculateTrade3TP negLimitsParams).stop_price = 0 ∧
    (calculateTrade3TP negLimitsParams).liquidation_price = 0 ∧
    ∀ t ∈ (calculateTrade3TP negLimitsParams).takes, t.price = 0) :=
  ⟨by decide, c9_negative_num_limits_zero_entry negLimitsParams (by decide)⟩

lemma long_ne_short : Direction.long ≠ Direction.short := fun h => Direction.noConfusion h

lemma short_ne_long : Direction.short ≠ Direction.long := fun h => Direction.noConfusion h

/-- C8: with positive leverage and entry price, `safety_margin_pct` is
positive exactly when `stop_risk < 1/leverage`, which is exactly when the
stop price lies strictly inside the liquidation price (above it for long,
below it for short). -/
theorem c8_safety_margin_pct_sign (p : TradeCalculationParams)
    (hcp : 0 < p.current_price) (hlev : 0 < p.leverage)
    (hn : p.num_limits = 0 ∨ p.num_limits = 1 ∨ p.num_limits = 2 ∨ p.num_limits = 3) :
    (0 < (calculateTrade3TP p).safety_margin_pct ↔ p.stop_risk < 1 / p.leverage) ∧
    (0 < (calculateTrade3TP p).safety_margin_pct ↔
      ((p.direction = Direction.long →
          (calculateTrade3TP p).liquidation_price < (calculateTrade3TP p).stop_price) ∧
       (p.direction = Direction.short →
          (calculateTrade3TP p).stop_price < (calculateTrade3TP p).liquidation_price))) := by
  have havg : 0 < avg_price p := avg_price_pos p hn hcp
  have key : (calculateTrade3TP p).safety_margin_pct
      = (1 / p.leverage - p.stop_risk) * 100 := by
    show safety_margin_pct p = _
    cases hd : p.direction
    · simp only [safety_margin_pct, stop_price, liquidation_price, hd]
      rw [show avg_price p * (1 - p.stop_risk) - avg_price p * (1 - 1 / p.leverage)
          = avg_price p * (1 / p.leverage - p.stop_risk) from by ring,
        mul_div_cancel_left₀ _ havg.ne']
    · simp only [safety_margin_pct, stop_price, liquidation_price, hd]
      rw [show avg_price p * (1 + 1 / p.leverage) - avg_price p * (1 + p.stop_risk)
          = avg_price p * (1 / p.leverage - p.stop_risk) from by ring,
        mul_div_cancel_left₀ _ havg.ne']
  have h100 : 0 < (1 / p.leverage - p.stop_risk) * 100 ↔ p.stop_risk < 1 / p.leverage := by
    constructor <;> intro h' <;> nlinarith
  have hin : ((p.direction = Direction.long → liquidation_price p < stop_price p) ∧
        (p.direction = Direction.short → stop_price p < liquidation_price p))
      ↔ p.stop_risk < 1 / p.leverage := by
    cases hd : p.direction
    · simp only [hd, long_ne_short, liquidation_price, stop_price, forall_const,
        false_implies, and_true, eq_self_iff_true, IsEmpty.forall_iff]
      constructor <;> intro h' <;> nlinarith [havg]
    · simp only [hd, short_ne_long, liquidation_price, stop_price, forall_const,
        false_implies, true_and, eq_self_iff_true, IsEmpty.forall_iff]
      constructor <;> intro h' <;> nlinarith [havg]
  constructor
  · rw [key]; exact h100
  · rw [key]; exact h100.trans hin.symm

/-- Witness for C8 at the all-defaults input. -/
theorem c8_safety_margin_pct_sign_witness :
    (0 < defaultParams.current_price ∧ 0 < defaultParams.leverage ∧
      (defaultParams.num_limits = 0 ∨ defaultParams.num_limits = 1 ∨
        defaultParams.num_limits = 2 ∨ defaultParams.num_limits = 3)) ∧
    ((0 < (calculateTrade3TP defaultParams).safety_margin_pct ↔
        defaultParams.stop_risk < 1 / defaultParams.leverage) ∧
     (0 < (calculateTrade3TP defaultParams).safety_margin_pct ↔
      ((defaultParams.direction = Direction.long →
          (calculateTrade3TP defaultParams).liquidation_price
            < (calculateTrade3TP defaultParams).stop_price) ∧
       (defaultParams.direction = Direction.short →
          (calculateTrade3TP defaultParams).stop_price
            < (calculateTrade3TP defaultParams).liquidation_price)))) :=
  ⟨⟨by norm_num [defaultParams], by norm_num [defaultParams], Or.inr (Or.inr (Or.inl rfl))⟩,
    c8_safety_margin_pct_sign defaultParams (by norm_num [defaultParams])
      (by norm_num [defaultParams]) (Or.inr (Or.inr (Or.inl rfl)))⟩

/-- C7: with all other fields fixed, a positive margin and `0 < L₁ < L₂`,
the position at leverage `L₂` is strictly larger than at `L₁`, and the
absolute distance from the entry price to the liquidation price at `L₂` is
strictly smaller than at `L₁`. -/
theorem c7_leverage_monotonicity (p : TradeCalculationParams) (L₁ L₂ : ℚ)
    (hcp : 0 < p.current_price) (hdep : 0 < p.deposit)
    (hn : p.num_limits = 0 ∨ p.num_limits = 1 ∨ p.num_limits = 2 ∨ p.num_limits = 3)
    (hm : 0 < (calculateTrade3TP { p with leverage := L₁ }).margin)
    (h1 : 0 < L₁) (h12 : L₁ < L₂) :
    (calculateTrade3TP { p with leverage := L₁ }).position
      < (calculateTrade3TP { p with leverage := L₂ }).position ∧
    |(calculateTrade3TP { p with leverage := L₂ }).entry_price
        - (calculateTrade3TP { p with leverage := L₂ }).liquidation_price|
      < |(calculateTrade3TP { p with leverage := L₁ }).entry_price
        - (calculateTrade3TP { p with leverage := L₁ }).liquidation_price| := by
  have hm' : 0 < margin p := hm
  have havg : 0 < avg_price p := avg_price_pos p hn hcp
  have h2 : 0 < L₂ := h1.trans h12
  constructor
  · show margin p * L₁ < margin p * L₂
    exact mul_lt_mul_of_pos_left h12 hm'
  · have g1 : |(calculateTrade3TP { p with leverage := L₁ }).entry_price
        - (calculateTrade3TP { p with leverage := L₁ }).liquidation_price|
        = avg_price p / L₁ := abs_entry_liq_gap { p with leverage := L₁ } h1 havg
    have g2 : |(calculateTrade3TP { p with leverage := L₂ }).entry_price
        - (calculateTrade3TP { p with leverage := L₂ }).liquidation_price|
        = avg_price p / L₂ := abs_entry_liq_gap { p with leverage := L₂ } h2 havg
    rw [g1, g2]
    exact div_lt_div_of_pos_left havg h1 h12

/-- Witness for C7 at the all-defaults input with leverages 5 < 10. -/
theorem c7_leverage_monotonicity_witness :
    (0 < defaultParams.current_price ∧ 0 < defaultParams.deposit ∧
      (defaultParams.num_limits = 0 ∨ defaultParams.num_limits = 1 ∨
        defaultParams.num_limits = 2 ∨ defaultParams.num_limits = 3) ∧
      0 < (calculateTrade3TP { defaultParams with leverage := 5 }).margin ∧
      (0 : ℚ) < 5 ∧ (5 : ℚ) < 10) ∧
    ((calculateTrade3TP { defaultParams with leverage := 5 }).position
        < (calculateTrade3TP { defaultParams with leverage := 10 }).position ∧
      |(calculateTrade3TP { defaultParams with leverage := 10 }).entry_price
          - (calculateTrade3TP { defaultParams with leverage := 10 }).liquidation_price|
        < |(calculateTrade3TP { defaultParams with leverage := 5 }).entry_price
          - (calculateTrade3TP { defaultParams with leverage := 5 }).liquidation_price|) :=
  ⟨⟨by norm_num [defaultParams], by norm_num [defaultParams], Or.inr (Or.inr (Or.inl rfl)),
      by norm_num [calculateTrade3TP, margin, calculated_margin, defaultParams,
        ne_fixed_kelly, ne_fixed_ff, ne_fixed_volatility, ne_fixed_rp],
      by norm_num, by norm_num⟩,
    c7_leverage_monotonicity defaultParams 5 10 (by norm_num [defaultParams])
      (by norm_num [defaultParams]) (Or.inr (Or.inr (Or.inl rfl)))
      (by norm_num [calculateTrade3TP, margin, calculated_margin, defaultParams,
        ne_fixed_kelly, ne_fixed_ff, ne_fixed_volatility, ne_fixed_rp])
      (by norm_num) (by norm_num)⟩

/-- C4: for every recognized direction and limit style and `num_limits` in
{1,2,3}, the first element of `limits` carries the economically best price
for the direction (lowest for long, highest for short), and the fixed
margin-split weights are applied in that best-first order. -/
theorem c4_first_limit_economically_best (p : TradeCalculationParams)
    (hcp : 0 < p.current_price)
    (hn : p.num_limits = 1 ∨ p.num_limits = 2 ∨ p.num_limits = 3) :
    (calculateTrade3TP p).limits ≠ [] ∧
    (∀ l ∈ (calculateTrade3TP p).limits,
      (p.direction = Direction.long →
        ((calculateTrade3TP p).limits.getD 0 { price := 0, margin := 0 }).price ≤ l.price) ∧
      (p.direction = Direction.short →
        l.price ≤ ((calculateTrade3TP p).limits.getD 0 { price := 0, margin := 0 }).price)) ∧
    (calculateTrade3TP p).limits.map TradeLimit.margin
      = (splits p.num_limits p.limit_style).map (fun s => margin p * s) := by
  rcases hn with h | h | h <;> cases hd : p.direction <;> cases hs : p.limit_style <;>
    norm_num [calculateTrade3TP, limits, h, hd, hs, long_ne_short, short_ne_long,
      sortedDistances, BASE_LIMITS, jsSliceTo, splits, sortAsc, insertAsc, sortDesc, insertDesc,
      toNat_one, toNat_two, toNat_three, range_one, range_two, range_three,
      replicate_two, replicate_three] <;>
    (repeat' apply And.intro) <;>
    first
      | exact fun hx => List.noConfusion hx
      | nlinarith [hcp]

/-- Witness for C4 at the all-defaults input (long, increasing, 2 limits). -/
theorem c4_first_limit_economically_best_witness :
    (0 < defaultParams.current_price ∧
      (defaultParams.num_limits = 1 ∨ defaultParams.num_limits = 2 ∨
        defaultParams.num_limits = 3)) ∧
    ((calculateTrade3TP defaultParams).limits ≠ [] ∧
    (∀ l ∈ (calculateTrade3TP defaultParams).limits,
      (defaultParams.direction = Direction.long →
        ((calculateTrade3TP defaultParams).limits.getD 0
            { price := 0, margin := 0 }).price ≤ l.price) ∧
      (defaultParams.direction = Direction.short →
        l.price ≤ ((calculateTrade3TP defaultParams).limits.getD 0
            { price := 0, margin := 0 }).price)) ∧
    (calculateTrade3TP defaultParams).limits.map TradeLimit.margin
      = (splits defaultParams.num_limits defaultParams.limit_style).map
          (fun s => margin defaultParams * s)) :=
  ⟨⟨by norm_num [defaultParams], Or.inr (Or.inl rfl)⟩,
    c4_first_limit_economically_best defaultParams (by norm_num [defaultParams])
      (Or.inr (Or.inl rfl))⟩

set_option maxHeartbeats 1000000 in
/-- C10: for every recognized direction and limit style and `num_limits` in
{1,2,3}, the numeric weighted-average entry price lies between the minimum
and the maximum of the individual limit prices, inclusive (stated as: some
limit price is at most the entry price and some limit price is at least the
entry price). -/
theorem c10_entry_price_between_min_max_limit (p : TradeCalculationParams)
    (hn : p.num_limits = 1 ∨ p.num_limits = 2 ∨ p.num_limits = 3) :
    (∃ l ∈ (calculateTrade3TP p).limits, l.price ≤ (calculateTrade3TP p).entry_price) ∧
    (∃ l ∈ (calculateTrade3TP p).limits, (calculateTrade3TP p).entry_price ≤ l.price) := by
  rcases hn with h | h | h <;> cases hd : p.direction <;> cases hs : p.limit_style <;>
    norm_num [calculateTrade3TP, limits, avg_price, h, hd, hs,
      sortedDistances, BASE_LIMITS, jsSliceTo, splits, sortAsc, insertAsc, sortDesc, insertDesc,
      toNat_one, toNat_two, toNat_three, range_one, range_two, range_three,
      replicate_two, replicate_three] <;>
    (rcases le_total 0 p.current_price with hsign | hsign <;>
      constructor <;>
        first
          | linarith [hsign]
          | (left; linarith [hsign])
          | (right; linarith [hsign])
          | (right; left; linarith [hsign])
          | (right; right; linarith [hsign]))

/-- Witness for C10 at the all-defaults input. -/
theorem c10_entry_price_between_min_max_limit_witness :
    (defaultParams.num_limits = 1 ∨ defaultParams.num_limits = 2 ∨
      defaultParams.num_limits = 3) ∧
    ((∃ l ∈ (calculateTrade3TP defaultParams).limits,
        l.price ≤ (calculateTrade3TP defaultParams).entry_price) ∧
     (∃ l ∈ (calculateTrade3TP defaultParams).limits,
        (calculateTrade3TP defaultParams).entry_price ≤ l.price)) :=
  ⟨Or.inr (Or.inl rfl),
    c10_entry_price_between_min_max_limit defaultParams (Or.inr (Or.inl rfl))⟩

end TradeCalc
